import Mathlib

/-!
Verification of the hadron robot-control repository against its
natural-language specification.

The Python source is shallowly embedded: pure numeric code becomes functions
over `ℚ` (floating point is modelled exactly on the dyadic inputs the claims
use), stateful objects become explicit state-passing records, fallible
methods return `Except`, and the asynchronous loops are modelled one
iteration at a time as pure transition functions over their queue state.
-/

namespace Hadron

/-! ## SteeringKinematics — `src/hadron2/carController.py`, `RobotCar.steer`

`MotorConfig.MIN_SPEED = -1.0`, `MAX_SPEED = 1.0`. -/

/-- Python's binary `max` on rationals, in executable form (agrees with
`Max.max`, see `pymax_eq_max`). -/
def pymax (a b : ℚ) : ℚ := if a ≤ b then b else a

/-- Python's binary `min` on rationals, in executable form (agrees with
`Min.min`, see `pymin_eq_min`). -/
def pymin (a b : ℚ) : ℚ := if b ≤ a then b else a

/-- Python's `abs` on rationals, in executable form (agrees with `|·|`,
see `pyabs_eq_abs`). -/
def pyabs (a : ℚ) : ℚ := if a < 0 then -a else a

theorem pymax_eq_max (a b : ℚ) : pymax a b = max a b := by
  unfold pymax
  rcases le_or_lt a b with h | h
  · rw [if_pos h, max_eq_right h]
  · rw [if_neg (not_le.mpr h), max_eq_left h.le]

theorem pymin_eq_min (a b : ℚ) : pymin a b = min a b := by
  unfold pymin
  rcases le_or_lt b a with h | h
  · rw [if_pos h, min_eq_right h]
  · rw [if_neg (not_le.mpr h), min_eq_left h.le]

theorem pyabs_eq_abs (a : ℚ) : pyabs a = |a| := by
  unfold pyabs
  rcases lt_or_le a 0 with h | h
  · rw [if_pos h, abs_of_neg h]
  · rw [if_neg (not_lt.mpr h), abs_of_nonneg h]

/-- `RobotCar._constrain_speed`: clamp a speed to `[-1, 1]`. -/
def constrainSpeed (speed : ℚ) : ℚ :=
  pymax (-1) (pymin 1 speed)

/-- The left/right throttle pair produced by the steering computation. -/
structure SteerOutput where
  left : ℚ
  right : ℚ
deriving Repr, DecidableEq

/-- The differential-steering kinematics of `RobotCar.steer` (lines 239-246):
`left = speed + direction*0.5`, `right = speed - direction*0.5`; if
`max(|left|,|right|) > 1.0` both are divided by that maximum. -/
def steerKinematics (speed direction : ℚ) : SteerOutput :=
  let left_speed := speed + direction * (1/2)
  let right_speed := speed - direction * (1/2)
  let max_speed := pymax (pyabs left_speed) (pyabs right_speed)
  if max_speed > 1 then
    { left := left_speed / max_speed, right := right_speed / max_speed }
  else
    { left := left_speed, right := right_speed }

/-- `steerKinematics` expressed with Mathlib's `max` and `|·|`. -/
theorem steerKinematics_eq (speed direction : ℚ) :
    steerKinematics speed direction =
      (if max |speed + direction * (1/2)| |speed - direction * (1/2)| > 1 then
        { left := (speed + direction * (1/2)) /
            max |speed + direction * (1/2)| |speed - direction * (1/2)|,
          right := (speed - direction * (1/2)) /
            max |speed + direction * (1/2)| |speed - direction * (1/2)| }
      else
        { left := speed + direction * (1/2), right := speed - direction * (1/2) }) := by
  simp only [steerKinematics, pymax_eq_max, pyabs_eq_abs]

/-- Unfolding of `steerKinematics` in the saturated case. -/
theorem steerKinematics_of_sat (speed direction : ℚ)
    (h : max |speed + direction * (1/2)| |speed - direction * (1/2)| > 1) :
    steerKinematics speed direction =
      { left := (speed + direction * (1/2)) /
          max |speed + direction * (1/2)| |speed - direction * (1/2)|,
        right := (speed - direction * (1/2)) /
          max |speed + direction * (1/2)| |speed - direction * (1/2)| } := by
  rw [steerKinematics_eq, if_pos h]

/-- Unfolding of `steerKinematics` in the unsaturated case. -/
theorem steerKinematics_of_unsat (speed direction : ℚ)
    (h : max |speed + direction * (1/2)| |speed - direction * (1/2)| ≤ 1) :
    steerKinematics speed direction =
      { left := speed + direction * (1/2), right := speed - direction * (1/2) } := by
  rw [steerKinematics_eq, if_neg (not_lt.mpr h)]

/-- `steer(speed=0.8, direction=0.8)` scales raw `(1.2, 0.4)` to `(1, 1/3)`. -/
theorem steerKinematics_eight_tenths :
    steerKinematics (4/5) (4/5) = { left := 1, right := 1/3 } := by
  have e1 : (4:ℚ)/5 + (4/5) * (1/2) = 6/5 := by norm_num
  have e2 : (4:ℚ)/5 - (4/5) * (1/2) = 2/5 := by norm_num
  have h : max |(4:ℚ)/5 + (4/5) * (1/2)| |(4:ℚ)/5 - (4/5) * (1/2)| = 6/5 := by
    rw [e1, e2, abs_of_pos (show (0:ℚ) < 6/5 by norm_num),
        abs_of_pos (show (0:ℚ) < 2/5 by norm_num)]
    exact max_eq_left (by norm_num)
  rw [steerKinematics_of_sat (4/5) (4/5) (by rw [h]; norm_num), h, e1, e2]
  simp only [SteerOutput.mk.injEq]
  norm_num

/-- C3: for every speed and direction in `[-1,1]` the steering computes
`left = speed + direction/2`, `right = speed - direction/2`; whenever either
magnitude exceeds `1` both are divided by the larger magnitude, after which
the larger lands exactly at `±1` and the left:right ratio is preserved; in
particular `steer(speed=0.8, direction=0.8)` has raw `left=1.2`, `right=0.4`
and is scaled by `1/1.2` to `left=1`, `right=1/3` (`0.333…`). -/
theorem C3_steer_scaling (speed direction : ℚ)
    (hs : -1 ≤ speed ∧ speed ≤ 1) (hd : -1 ≤ direction ∧ direction ≤ 1) :
    (max |speed + direction * (1/2)| |speed - direction * (1/2)| > 1 →
      steerKinematics speed direction =
        { left := (speed + direction * (1/2)) /
            max |speed + direction * (1/2)| |speed - direction * (1/2)|,
          right := (speed - direction * (1/2)) /
            max |speed + direction * (1/2)| |speed - direction * (1/2)| } ∧
      max |(steerKinematics speed direction).left|
          |(steerKinematics speed direction).right| = 1 ∧
      (steerKinematics speed direction).left * (speed - direction * (1/2)) =
        (steerKinematics speed direction).right * (speed + direction * (1/2))) ∧
    (max |speed + direction * (1/2)| |speed - direction * (1/2)| ≤ 1 →
      steerKinematics speed direction =
        { left := speed + direction * (1/2), right := speed - direction * (1/2) }) ∧
    ((4:ℚ)/5 + (4/5) * (1/2) = 6/5 ∧ (4:ℚ)/5 - (4/5) * (1/2) = 2/5) ∧
    steerKinematics (4/5) (4/5) = { left := 1, right := 1/3 } := by
  refine ⟨fun h => ?_, steerKinematics_of_unsat speed direction, by norm_num,
    steerKinematics_eight_tenths⟩
  have hm : (0:ℚ) < max |speed + direction * (1/2)| |speed - direction * (1/2)| :=
    lt_trans one_pos h
  refine ⟨steerKinematics_of_sat speed direction h, ?_, ?_⟩
  · rw [steerKinematics_of_sat speed direction h]
    dsimp only
    rw [abs_div, abs_div, abs_of_pos hm, max_div_div_right hm.le, div_self hm.ne']
  · rw [steerKinematics_of_sat speed direction h]
    dsimp only
    ring

/-- C3 witness at `speed = 4/5`, `direction = 4/5`. -/
theorem C3_steer_scaling_witness :
    ((-1 ≤ (4:ℚ)/5 ∧ (4:ℚ)/5 ≤ 1) ∧
      steerKinematics (4/5) (4/5) = { left := 1, right := 1/3 }) :=
  ⟨⟨by norm_num, by norm_num⟩,
    (C3_steer_scaling (4/5) (4/5) ⟨by norm_num, by norm_num⟩
      ⟨by norm_num, by norm_num⟩).2.2.2⟩

/-- C4: for all `speed, direction ∈ [-1,1]` the steering kinematics output
satisfies `|left| ≤ 1` and `|right| ≤ 1`, and whenever no saturation
scaling occurred (`max(|speed+direction/2|, |speed-direction/2|) ≤ 1`)
`left - right = direction` exactly. -/
theorem C4_steer_bounded (speed direction : ℚ)
    (hs : -1 ≤ speed ∧ speed ≤ 1) (hd : -1 ≤ direction ∧ direction ≤ 1) :
    |(steerKinematics speed direction).left| ≤ 1 ∧
    |(steerKinematics speed direction).right| ≤ 1 ∧
    (max |speed + direction * (1/2)| |speed - direction * (1/2)| ≤ 1 →
      (steerKinematics speed direction).left -
        (steerKinematics speed direction).right = direction) := by
  by_cases h : max |speed + direction * (1/2)| |speed - direction * (1/2)| > 1
  · have hm : (0:ℚ) < max |speed + direction * (1/2)| |speed - direction * (1/2)| :=
      lt_trans one_pos h
    rw [steerKinematics_of_sat speed direction h]
    refine ⟨?_, ?_, fun hc => absurd h (not_lt.mpr hc)⟩
    · rw [abs_div, abs_of_pos hm, div_le_one hm]
      exact le_max_left _ _
    · rw [abs_div, abs_of_pos hm, div_le_one hm]
      exact le_max_right _ _
  · push_neg at h
    rw [steerKinematics_of_unsat speed direction h]
    exact ⟨le_trans (le_max_left _ _) h, le_trans (le_max_right _ _) h, fun _ => by ring⟩

/-- C4 witness at `speed = 4/5`, `direction = 4/5`. -/
theorem C4_steer_bounded_witness :
    ((-1 ≤ (4:ℚ)/5 ∧ (4:ℚ)/5 ≤ 1) ∧
      |(steerKinematics (4/5) (4/5)).left| ≤ 1 ∧
      |(steerKinematics (4/5) (4/5)).right| ≤ 1 ∧
      (max |(4:ℚ)/5 + (4/5) * (1/2)| |(4:ℚ)/5 - (4/5) * (1/2)| ≤ 1 →
        (steerKinematics (4/5) (4/5)).left -
          (steerKinematics (4/5) (4/5)).right = 4/5)) :=
  ⟨⟨by norm_num, by norm_num⟩,
    C4_steer_bounded (4/5) (4/5) ⟨by norm_num, by norm_num⟩ ⟨by norm_num, by norm_num⟩⟩

/-! ## RobotCar — `src/hadron2/carController.py`

The hardware variant (the `try` branch) mutates the two crickit motor
throttle registers; the dummy variant (the `except` branch) has no motors.
Each write to a `throttle` register is additionally recorded in a `calls`
trace so that "no actuator call happened" is directly expressible. -/

/-- `RobotState` — robot movement states (`carController.py` lines 32-42). -/
inductive RobotState
  | stopped
  | movingForward
  | movingBackward
  | turningLeft
  | turningRight
  | spinningLeft
  | spinningRight
  | steering
  | emergencyStop
deriving Repr, DecidableEq

/-- `MotorSetup` — motor inversion configuration (ports are irrelevant to
the claims). Source defaults: left inverted, right not. -/
structure MotorSetup where
  left_motor_inverted : Bool
  right_motor_inverted : Bool
deriving Repr, DecidableEq

/-- The source's `MotorSetup()` defaults. -/
def defaultMotorSetup : MotorSetup :=
  { left_motor_inverted := true, right_motor_inverted := false }

/-- State of the hardware `RobotCar`: trims, config, the two motor throttle
registers, the movement flag and state, plus a trace of every raw throttle
register write `(motor, value)` performed. -/
structure RobotCar where
  left_trim : ℚ
  right_trim : ℚ
  cfg : MotorSetup
  left_throttle : ℚ
  right_throttle : ℚ
  is_moving : Bool
  state : RobotState
  calls : List (String × ℚ)
deriving Repr, DecidableEq

/-- `RobotCar._validate_speed`: raises `ValueError` unless
`MIN_SPEED ≤ speed ≤ MAX_SPEED` (i.e. `[-1, 1]`). -/
def validateSpeed (speed : ℚ) : Except String Unit :=
  if -1 ≤ speed ∧ speed ≤ 1 then Except.ok ()
  else Except.error "speed must be between -1.0 and 1.0"

/-- `RobotCar._left_speed`: validate, add trim, constrain, invert if
configured, then write the left motor throttle register. -/
def RobotCar.left_speed (c : RobotCar) (speed : ℚ) : Except String RobotCar := do
  validateSpeed speed
  let s := constrainSpeed (speed + c.left_trim)
  let s := if c.cfg.left_motor_inverted then -s else s
  Except.ok { c with left_throttle := s, calls := c.calls ++ [("left", s)] }

/-- `RobotCar._right_speed`: validate, add trim, constrain, invert if
configured, then write the right motor throttle register. -/
def RobotCar.right_speed (c : RobotCar) (speed : ℚ) : Except String RobotCar := do
  validateSpeed speed
  let s := constrainSpeed (speed + c.right_trim)
  let s := if c.cfg.right_motor_inverted then -s else s
  Except.ok { c with right_throttle := s, calls := c.calls ++ [("right", s)] }

/-- `RobotCar.stop`: write `STOP_SPEED = 0` to both throttle registers
directly, clear `_is_moving`, set state `STOPPED`. No validation. -/
def RobotCar.stop (c : RobotCar) : RobotCar :=
  { c with left_throttle := 0, right_throttle := 0,
           is_moving := false, state := RobotState.stopped,
           calls := c.calls ++ [("left", 0), ("right", 0)] }

/-- `RobotCar.emergency_stop`: write `STOP_SPEED = 0` to both throttle
registers directly, clear `_is_moving`, set state `EMERGENCY_STOP`.
No validation, no throttling, total (never raises). -/
def RobotCar.emergency_stop (c : RobotCar) : RobotCar :=
  { c with left_throttle := 0, right_throttle := 0,
           is_moving := false, state := RobotState.emergencyStop,
           calls := c.calls ++ [("left", 0), ("right", 0)] }

/-- `RobotCar.forward` (without the optional `seconds`): validate, set both
motor speeds, mark moving, state `MOVING_FORWARD`. -/
def RobotCar.forward (c : RobotCar) (speed : ℚ) : Except String RobotCar := do
  validateSpeed speed
  let c ← c.left_speed speed
  let c ← c.right_speed speed
  Except.ok { c with is_moving := true, state := RobotState.movingForward }

/-- `RobotCar.backward` (without the optional `seconds`). -/
def RobotCar.backward (c : RobotCar) (speed : ℚ) : Except String RobotCar := do
  validateSpeed speed
  let c ← c.left_speed (-speed)
  let c ← c.right_speed (-speed)
  Except.ok { c with is_moving := true, state := RobotState.movingBackward }

/-- `RobotCar.turn_left` (without the optional `seconds`): left motor
stopped, right motor at `speed`. -/
def RobotCar.turn_left (c : RobotCar) (speed : ℚ) : Except String RobotCar := do
  validateSpeed speed
  let c ← c.left_speed 0
  let c ← c.right_speed speed
  Except.ok { c with is_moving := true, state := RobotState.turningLeft }

/-- `RobotCar.turn_right` (without the optional `seconds`): left motor at
`speed`, right motor stopped. -/
def RobotCar.turn_right (c : RobotCar) (speed : ℚ) : Except String RobotCar := do
  validateSpeed speed
  let c ← c.left_speed speed
  let c ← c.right_speed 0
  Except.ok { c with is_moving := true, state := RobotState.turningRight }

/-- The individual actions `RobotCar.forward` performs, in order, so that an
emergency stop can be interposed after any prefix ("mid-throttle
application"). -/
inductive ForwardStep
  | validate
  | setLeft
  | setRight
  | finish
deriving Repr, DecidableEq

/-- The sequence of actions `RobotCar.forward` performs. -/
def forwardSteps : List ForwardStep :=
  [ForwardStep.validate, ForwardStep.setLeft, ForwardStep.setRight, ForwardStep.finish]

/-- Run one action of `RobotCar.forward`. -/
def runForwardStep (speed : ℚ) (c : RobotCar) : ForwardStep → Except String RobotCar
  | ForwardStep.validate => do validateSpeed speed; Except.ok c
  | ForwardStep.setLeft => c.left_speed speed
  | ForwardStep.setRight => c.right_speed speed
  | ForwardStep.finish =>
      Except.ok { c with is_moving := true, state := RobotState.movingForward }

/-- Run a sequence of `RobotCar.forward` actions. -/
def runForwardSteps (speed : ℚ) : List ForwardStep → RobotCar → Except String RobotCar
  | [], c => Except.ok c
  | s :: rest, c =>
    match runForwardStep speed c s with
    | Except.error e => Except.error e
    | Except.ok c2 => runForwardSteps speed rest c2

/-- Decomposing `RobotCar.forward` into its step sequence is faithful. -/
theorem forward_eq_runForwardSteps (c : RobotCar) (speed : ℚ) :
    c.forward speed = runForwardSteps speed forwardSteps c := by
  by_cases h : -1 ≤ speed ∧ speed ≤ 1 <;>
    simp [RobotCar.forward, forwardSteps, runForwardSteps, runForwardStep,
      RobotCar.left_speed, RobotCar.right_speed, validateSpeed, h, bind, Except.bind]

/-- State of the dummy `RobotCar` (hardware absent): no motor registers. -/
structure DummyRobotCar where
  left_trim : ℚ
  right_trim : ℚ
  is_moving : Bool
  state : RobotState
deriving Repr, DecidableEq

/-- Dummy `RobotCar.emergency_stop`: clear `_is_moving`, set state
`EMERGENCY_STOP`; total, no hardware access. -/
def DummyRobotCar.emergency_stop (c : DummyRobotCar) : DummyRobotCar :=
  { c with is_moving := false, state := RobotState.emergencyStop }

/-! ## RobotService — `src/hadron2/core/robot_service.py`

`execute_command` dispatches one of the five configured command strings to
the wrapped `RobotCar`, then updates its own bookkeeping and notifies the
registered state-change callbacks. `emergency_stop` logs and delegates to
`execute_command("stop")`. Configuration values come from
`src/hadron2/config.py` (`RobotConfig`). -/

/-- `config.robot.max_speed = 1.0`. -/
def robotMaxSpeed : ℚ := 1

/-- `config.robot.turn_speed = 0.8`. -/
def robotTurnSpeed : ℚ := 4/5

/-- State of a `RobotService`: the wrapped robot (`none` when
initialization failed), command bookkeeping, and a count of state-change
observer notifications issued by `_notify_state_change`. -/
structure RobotService where
  robot : Option RobotCar
  current_command : String
  current_speed : ℚ
  is_moving : Bool
  last_command_time : ℚ
  notify_count : Nat
deriving Repr, DecidableEq

/-- `RobotService.execute_command` (`robot_service.py` lines 78-136): returns
`False` with nothing changed when the robot is uninitialized, the command is
unknown, or the robot call raises; otherwise applies the command, updates
`current_command`, `current_speed`, `is_moving`, `last_command_time`
(`now`), and notifies the state observers once. -/
def RobotService.execute_command (svc : RobotService) (now : ℚ) (command : String)
    (speed? : Option ℚ) : Bool × RobotService :=
  match svc.robot with
  | none => (false, svc)
  | some robot =>
    let speed :=
      match speed? with
      | some s => s
      | none => if command = "left" ∨ command = "right" then robotTurnSpeed else robotMaxSpeed
    let result : Except String (RobotCar × ℚ) :=
      if command = "forward" then do
        let r ← robot.forward speed
        Except.ok (r, speed)
      else if command = "backward" then do
        let r ← robot.backward speed
        Except.ok (r, speed)
      else if command = "left" then do
        let r ← robot.turn_left speed
        Except.ok (r, speed)
      else if command = "right" then do
        let r ← robot.turn_right speed
        Except.ok (r, speed)
      else if command = "stop" then
        Except.ok (robot.stop, 0)
      else
        Except.error "unknown command"
    match result with
    | Except.error _ => (false, svc)
    | Except.ok (robot2, speed2) =>
      (true,
        { svc with
            robot := some robot2,
            current_command := command,
            current_speed := speed2,
            is_moving := decide (command ≠ "stop"),
            last_command_time := now,
            notify_count := svc.notify_count + 1 })

/-- `RobotService.emergency_stop` (`robot_service.py` lines 179-182): logs a
warning and delegates to `execute_command("stop")` (default speed). -/
def RobotService.emergency_stop (svc : RobotService) (now : ℚ) : Bool × RobotService :=
  svc.execute_command now "stop" none

/-- A freshly constructed hardware `RobotCar` with zero trims and default
motor config. -/
def initialCar : RobotCar :=
  { left_trim := 0, right_trim := 0, cfg := defaultMotorSetup,
    left_throttle := 0, right_throttle := 0,
    is_moving := false, state := RobotState.stopped, calls := [] }

/-- A `RobotService` that successfully initialized its robot. -/
def initialService : RobotService :=
  { robot := some initialCar, current_command := "stop", current_speed := 0,
    is_moving := false, last_command_time := 0, notify_count := 0 }

/-- `initialCar` after `forward(0.5)` has applied the left throttle but not
yet the right one: the left register holds `-(1/2)` (left motor inverted). -/
def midForwardCar : RobotCar :=
  { left_trim := 0, right_trim := 0, cfg := defaultMotorSetup,
    left_throttle := -(1/2), right_throttle := 0,
    is_moving := false, state := RobotState.stopped,
    calls := [("left", -(1/2))] }

/-- C1 counterexample: the claim says calling emergency stop leaves the
final motion state `EmergencyStopped`, but `RobotService.emergency_stop`
delegates to the ordinary `stop` command, so after a service-level emergency
stop on a freshly initialized service the robot's state is `STOPPED`, not
`EMERGENCY_STOP`. -/
theorem C1_emergency_stop_counterexample :
    ((initialService.emergency_stop 1).2.robot.map RobotCar.state =
      some RobotState.stopped) ∧
    RobotState.stopped ≠ RobotState.emergencyStop := by
  constructor
  · rfl
  · decide

/-- C1 amended: at the actuator layer, `RobotCar.emergency_stop` — a total
function, performing no validation or throttling — interposed after any
prefix of a `Forward` command's actions leaves both motor throttles at `0`,
`is_moving` false and state `EMERGENCY_STOP`; the dummy-mode
`emergency_stop` likewise always ends in state `EMERGENCY_STOP`. (The
`RobotService.emergency_stop` wrapper instead routes to the ordinary `stop`
command, ending in state `STOPPED`; see the counterexample.) -/
theorem C1_emergency_stop_amended (c c2 : RobotCar) (speed : ℚ) (p q : List ForwardStep)
    (hsplit : p ++ q = forwardSteps) (hrun : runForwardSteps speed p c = Except.ok c2) :
    c2.emergency_stop.left_throttle = 0 ∧
    c2.emergency_stop.right_throttle = 0 ∧
    c2.emergency_stop.is_moving = false ∧
    c2.emergency_stop.state = RobotState.emergencyStop ∧
    (∀ dc : DummyRobotCar, dc.emergency_stop.is_moving = false ∧
      dc.emergency_stop.state = RobotState.emergencyStop) := by
  refine ⟨rfl, rfl, rfl, rfl, fun dc => ⟨rfl, rfl⟩⟩

/-- Evaluation of the first two `Forward` actions at speed `1/2` from a
fresh car: the left throttle register now holds `-(1/2)`. -/
theorem runForwardSteps_mid :
    runForwardSteps (1/2) [ForwardStep.validate, ForwardStep.setLeft] initialCar =
      Except.ok midForwardCar := by
  norm_num [runForwardSteps, runForwardStep, validateSpeed, RobotCar.left_speed,
    constrainSpeed, pymax, pymin, initialCar, midForwardCar, defaultMotorSetup,
    bind, Except.bind]

/-- C1 witness: a `Forward` at speed `1/2` interrupted right after the left
throttle was applied (mid-throttle application), then emergency-stopped. -/
theorem C1_emergency_stop_witness :
    ([ForwardStep.validate, ForwardStep.setLeft] ++
        [ForwardStep.setRight, ForwardStep.finish] = forwardSteps) ∧
    (runForwardSteps (1/2) [ForwardStep.validate, ForwardStep.setLeft] initialCar =
      Except.ok midForwardCar) ∧
    (midForwardCar.emergency_stop.left_throttle = 0 ∧
      midForwardCar.emergency_stop.right_throttle = 0 ∧
      midForwardCar.emergency_stop.is_moving = false ∧
      midForwardCar.emergency_stop.state = RobotState.emergencyStop ∧
      (∀ dc : DummyRobotCar, dc.emergency_stop.is_moving = false ∧
        dc.emergency_stop.state = RobotState.emergencyStop)) :=
  ⟨rfl, runForwardSteps_mid,
    C1_emergency_stop_amended initialCar midForwardCar (1/2)
      [ForwardStep.validate, ForwardStep.setLeft]
      [ForwardStep.setRight, ForwardStep.finish] rfl runForwardSteps_mid⟩

/-- C10: for every command string other than the five recognized ones,
`execute_command` returns `False` and the entire service state — including
the wrapped robot with its actuator-write trace (so no actuator call
happened), `current_command`, `current_speed`, `is_moving`,
`last_command_time`, and the observer-notification count — is unchanged. -/
theorem C10_unknown_command_atomic (svc : RobotService) (now : ℚ) (command : String)
    (speed? : Option ℚ)
    (h : command ∉ ["forward", "backward", "left", "right", "stop"]) :
    svc.execute_command now command speed? = (false, svc) := by
  simp only [List.mem_cons, List.mem_singleton, not_or] at h
  obtain ⟨h1, h2, h3, h4, h5, -⟩ := h
  unfold RobotService.execute_command
  cases svc.robot with
  | none => rfl
  | some robot => simp [h1, h2, h3, h4, h5]

/-- C10 witness: the unknown command `"dance"` on a freshly initialized
service leaves everything unchanged. -/
theorem C10_unknown_command_atomic_witness :
    ("dance" ∉ ["forward", "backward", "left", "right", "stop"]) ∧
    initialService.execute_command 7 "dance" none = (false, initialService) :=
  ⟨by decide, C10_unknown_command_atomic initialService 7 "dance" none (by decide)⟩

/-! ## OptimizedRobotMCPServer — `src/hadron/mcp/mcp_server_hadron.py`

Frame caching (`frame_cache = deque(maxlen=MAX_CACHED_FRAMES)` filled by
`frame_caching_loop`), command batching (`queue_command` /
`command_batching_loop`), and the WebSocket immediate path
(`websocket_handler` → `send_robot_command`). -/

/-- `MAX_CACHED_FRAMES = 5`. -/
def MAX_CACHED_FRAMES : Nat := 5

/-- `COMMAND_BATCH_SIZE = 3`. -/
def COMMAND_BATCH_SIZE : Nat := 3

/-- `CachedFrame`: frame bytes, capture timestamp, increasing id. -/
structure CachedFrame where
  data : List Nat
  timestamp : ℚ
  frame_id : Nat
deriving Repr, DecidableEq

/-- Appending to a Python `deque(maxlen=n)`: when the deque is full the
oldest (leftmost) entries are discarded. -/
def dequeAppend (maxlen : Nat) (q : List CachedFrame) (x : CachedFrame) : List CachedFrame :=
  let q2 := q ++ [x]
  if maxlen < q2.length then q2.drop (q2.length - maxlen) else q2

/-- The frame-caching state: `frame_counter` and the bounded `frame_cache`. -/
structure FrameCacheState where
  frame_counter : Nat
  frame_cache : List CachedFrame
deriving Repr, DecidableEq

/-- One successful iteration of `frame_caching_loop`: increment the counter
and append the new `CachedFrame` to the `maxlen=5` deque. -/
def cacheFrame (st : FrameCacheState) (data : List Nat) (now : ℚ) : FrameCacheState :=
  { frame_counter := st.frame_counter + 1,
    frame_cache := dequeAppend MAX_CACHED_FRAMES st.frame_cache
      { data := data, timestamp := now, frame_id := st.frame_counter + 1 } }

/-- Record a sequence of fetched frames, oldest first. -/
def cacheFrames (st : FrameCacheState) (frames : List (List Nat × ℚ)) : FrameCacheState :=
  frames.foldl (fun s f => cacheFrame s f.1 f.2) st

/-- The empty frame-caching state at server construction. -/
def initialFrameCacheState : FrameCacheState :=
  { frame_counter := 0, frame_cache := [] }

/-- C8: recording `MAX_CACHED_FRAMES + 1 = 6` frames into the fresh cache
leaves exactly `MAX_CACHED_FRAMES = 5` entries, the oldest originally
inserted frame (`frame_id = 1`) is absent, and the survivors are the last
five in insertion order (oldest-first eviction). -/
theorem C8_frame_cache_bounded (d1 d2 d3 d4 d5 d6 : List Nat) (t1 t2 t3 t4 t5 t6 : ℚ) :
    (cacheFrames initialFrameCacheState
        [(d1, t1), (d2, t2), (d3, t3), (d4, t4), (d5, t5), (d6, t6)]).frame_cache =
      [{ data := d2, timestamp := t2, frame_id := 2 },
       { data := d3, timestamp := t3, frame_id := 3 },
       { data := d4, timestamp := t4, frame_id := 4 },
       { data := d5, timestamp := t5, frame_id := 5 },
       { data := d6, timestamp := t6, frame_id := 6 }] ∧
    (cacheFrames initialFrameCacheState
        [(d1, t1), (d2, t2), (d3, t3), (d4, t4), (d5, t5), (d6, t6)]).frame_cache.length =
      MAX_CACHED_FRAMES ∧
    ∀ e ∈ (cacheFrames initialFrameCacheState
        [(d1, t1), (d2, t2), (d3, t3), (d4, t4), (d5, t5), (d6, t6)]).frame_cache,
      e.frame_id ≠ 1 := by
  have h : (cacheFrames initialFrameCacheState
      [(d1, t1), (d2, t2), (d3, t3), (d4, t4), (d5, t5), (d6, t6)]).frame_cache =
      [{ data := d2, timestamp := t2, frame_id := 2 },
       { data := d3, timestamp := t3, frame_id := 3 },
       { data := d4, timestamp := t4, frame_id := 4 },
       { data := d5, timestamp := t5, frame_id := 5 },
       { data := d6, timestamp := t6, frame_id := 6 }] := by
    simp [cacheFrames, cacheFrame, dequeAppend, initialFrameCacheState, MAX_CACHED_FRAMES]
  refine ⟨h, by rw [h]; rfl, ?_⟩
  intro e he
  rw [h] at he
  simp only [List.mem_cons, List.not_mem_nil, or_false] at he
  rcases he with h1 | h1 | h1 | h1 | h1 <;> subst h1 <;> simp

/-- `Command` from the batching path: a direction plus the identity of the
`asyncio.Future` its caller awaits. -/
structure Command where
  direction : String
  fid : Nat
deriving Repr, DecidableEq

/-- `queue_command`'s enqueue: append the command to the shared deque (the
caller then awaits its future). -/
def queue_command (q : List Command) (c : Command) : List Command := q ++ [c]

/-- Result of one wake-up of `command_batching_loop`. -/
structure BatchIterationResult where
  remaining : List Command
  actuator_calls : List String
  resolutions : List (Nat × Except String String)
deriving Repr

/-- One wake-up of `command_batching_loop` (`mcp_server_hadron.py` lines
178-212): if the queue is empty, continue; otherwise pop up to
`COMMAND_BATCH_SIZE` commands, send only the last popped command to the
actuator (`send_robot_command`, whose outcome is the parameter `send`), and
resolve every future in the batch with that single outcome — the result on
success, the error on failure, uniformly. -/
def command_batch_iteration (q : List Command)
    (send : String → Except String String) : BatchIterationResult :=
  if q = [] then { remaining := q, actuator_calls := [], resolutions := [] }
  else
    let n := min COMMAND_BATCH_SIZE q.length
    let batch := q.take n
    let rest := q.drop n
    match batch.getLast? with
    | none => { remaining := rest, actuator_calls := [], resolutions := [] }
    | some latest =>
      match send latest.direction with
      | Except.ok r =>
        { remaining := rest, actuator_calls := [latest.direction],
          resolutions := batch.map fun c => (c.fid, Except.ok r) }
      | Except.error e =>
        { remaining := rest, actuator_calls := [latest.direction],
          resolutions := batch.map fun c => (c.fid, Except.error e) }

/-- C5: enqueueing `[A, B, C]` within one batch window (batch size 3) and
running one batching iteration sends exactly one actuator call, carrying the
last command `C`; all three completion handles resolve to that single call's
outcome — `send C.direction` itself, whether success or error — uniformly,
and the queue is drained. -/
theorem C5_batcher_coalesces (A B C : Command) (send : String → Except String String) :
    (command_batch_iteration (queue_command (queue_command (queue_command [] A) B) C)
        send).actuator_calls = [C.direction] ∧
    (command_batch_iteration (queue_command (queue_command (queue_command [] A) B) C)
        send).resolutions =
      [(A.fid, send C.direction), (B.fid, send C.direction), (C.fid, send C.direction)] ∧
    (command_batch_iteration (queue_command (queue_command (queue_command [] A) B) C)
        send).remaining = [] := by
  have hq : queue_command (queue_command (queue_command [] A) B) C = [A, B, C] := rfl
  rw [hq]
  cases h : send C.direction with
  | ok r =>
    simp [command_batch_iteration, COMMAND_BATCH_SIZE, h]
  | error e =>
    simp [command_batch_iteration, COMMAND_BATCH_SIZE, h]

/-! ### The WebSocket immediate path and the absence of CommandThrottle

`websocket_handler` (lines 241-256) performs `send_robot_command` inline for
each `{"type": "command"}` message as soon as it is received; neither it nor
`send_robot_command` (lines 214-224) contains any wait, sleep or
minimum-interval logic, and no `CommandThrottle` component exists anywhere
in the repository. Each actuator send is therefore modelled as occurring at
the receipt time of its message. -/

/-- A message arriving on the WebSocket, after JSON parsing. -/
inductive WsMessage
  | command (direction : String)
  | otherType
  | invalidJson
deriving Repr, DecidableEq

/-- The actuator sends performed by `websocket_handler` on a stream of
timed incoming messages: each `command` message triggers
`send_robot_command` at its receipt time (bypassing batching, with no
throttle); other messages trigger none. -/
def websocket_actuator_sends : List (ℚ × WsMessage) → List (ℚ × String)
  | [] => []
  | (t, WsMessage.command d) :: rest => (t, d) :: websocket_actuator_sends rest
  | (_, WsMessage.otherType) :: rest => websocket_actuator_sends rest
  | (_, WsMessage.invalidJson) :: rest => websocket_actuator_sends rest

/-- Modelled from the spec: the `CommandThrottle` minimum interval between
actuator sends — the spec's example value, 50 ms. No `CommandThrottle`
exists in the source; this constant only quantifies the counterexample. -/
def minIntervalSpec : ℚ := 1/20

/-- C2 counterexample: two WebSocket command messages received 10 ms apart
produce two actuator sends 10 ms apart — less than the 50 ms `minInterval`
— so the immediate path does not enforce any minimum interval between
actuator sends. -/
theorem C2_websocket_throttle_counterexample :
    websocket_actuator_sends
        [(0, WsMessage.command "forward"), (1/100, WsMessage.command "forward")] =
      [(0, "forward"), (1/100, "forward")] ∧
    (1/100 : ℚ) - 0 < minIntervalSpec := by
  constructor
  · rfl
  · norm_num [minIntervalSpec]

/-- C2 amended: the immediate/WebSocket path performs no throttling at all —
each command message causes an actuator send at exactly its receipt time, so
two command messages arriving back-to-back yield two actuator sends at those
same times, however close together they are. -/
theorem C2_websocket_no_throttle (t1 t2 : ℚ) (d1 d2 : String)
    (rest : List (ℚ × WsMessage)) :
    websocket_actuator_sends
        ((t1, WsMessage.command d1) :: (t2, WsMessage.command d2) :: rest) =
      (t1, d1) :: (t2, d2) :: websocket_actuator_sends rest := by
  rfl

/-! ## StreamingOutput — `src/hadron2/core/camera_service.py` (lines 23-38)

The single-slot latest-wins frame buffer: `write(buf)` overwrites
`self.frame` and wakes all waiters; consumers read the current slot. -/

/-- The streaming output's single frame slot (`None` before first write). -/
structure StreamingOutput where
  frame : Option (List Nat)
deriving Repr, DecidableEq

/-- `StreamingOutput.write`: overwrite the slot with the new frame bytes
(and `notify_all` the condition — waking is not modelled further). -/
def StreamingOutput.write (o : StreamingOutput) (buf : List Nat) : StreamingOutput :=
  { frame := some buf }

/-- What a consumer reads after waking: the current slot. -/
def StreamingOutput.readFrame (o : StreamingOutput) : Option (List Nat) :=
  o.frame

/-- C7: the buffer retains only the single most recently published frame —
after `publish(f1)` then `publish(f2)`, a consumer that has not yet read
`f1` receives `f2` and never `f1`, for every pair of distinct frames and
every prior buffer state. -/
theorem C7_latest_wins (o : StreamingOutput) (f1 f2 : List Nat) (h : f1 ≠ f2) :
    ((o.write f1).write f2).readFrame = some f2 ∧
    ((o.write f1).write f2).readFrame ≠ some f1 := by
  refine ⟨rfl, fun hc => ?_⟩
  simp only [StreamingOutput.write, StreamingOutput.readFrame, Option.some.injEq] at hc
  exact h hc.symm

/-- C7 witness: publishing `[1]` then `[2]` over an empty buffer. -/
theorem C7_latest_wins_witness :
    (([1] : List Nat) ≠ [2]) ∧
    ((StreamingOutput.mk none).write [1] |>.write [2]).readFrame = some [2] ∧
    ((StreamingOutput.mk none).write [1] |>.write [2]).readFrame ≠ some [1] :=
  ⟨by decide, C7_latest_wins (StreamingOutput.mk none) [1] [2] (by decide)⟩

/-! ## JoystickReader — `src/hadron2/joystickController.py`

`read_events` reads fixed-size 8-byte records (`struct` format `"IhBB"`,
little-endian: u32 timestamp, i16 value, u8 type, u8 number), classifies
them (`_process_event`), fires the registered callbacks and yields the
event; a record of the wrong length raises `struct.error`, which is caught:
the error counter is incremented and the loop continues. -/

/-- `EventType` (`joystickController.py` lines 18-23). -/
inductive EventType
  | init
  | button
  | axis
deriving Repr, DecidableEq

/-- `JoystickEvent` (lines 31-45): the structured event handed to callbacks
and yielded to the caller. -/
structure JoystickEvent where
  timestamp : Nat
  event_type : EventType
  number : Nat
  value : Int
  raw_type : Nat
deriving Repr, DecidableEq

/-- `JoystickEvent.normalized_value` (lines 40-45): for axis events,
`value / 32767.0` — with no clamping and no dead-zone; other events just get
`float(value)`. -/
def JoystickEvent.normalized_value (e : JoystickEvent) : ℚ :=
  if e.event_type = EventType.axis then (e.value : ℚ) / 32767 else (e.value : ℚ)

/-- `JoystickConfig` fields relevant to normalization and decoding. -/
structure JoystickConfig where
  deadzone : ℚ
  axis_scale : ℚ
  enable_init_events : Bool
deriving Repr, DecidableEq

/-- The source's `JoystickConfig()` defaults: `deadzone=0.1`,
`axis_scale=1.0`, `enable_init_events=False`. -/
def defaultJoystickConfig : JoystickConfig :=
  { deadzone := 1/10, axis_scale := 1, enable_init_events := false }

/-- `JoystickReader._normalize_axis_value` (lines 206-219): divide by 32767,
zero the value inside the dead-zone, scale, clamp to `[-1, 1]`. This helper
is defined in the source but never invoked on events delivered by
`read_events`. -/
def normalize_axis_value (cfg : JoystickConfig) (raw_value : Int) : ℚ :=
  let normalized := (raw_value : ℚ) / 32767
  let normalized := if pyabs normalized < cfg.deadzone then 0 else normalized
  let normalized := normalized * cfg.axis_scale
  pymax (-1) (pymin 1 normalized)

/-- Little-endian unsigned 32-bit decode of four bytes. -/
def decodeU32 (b0 b1 b2 b3 : Nat) : Nat :=
  b0 + 256 * b1 + 65536 * b2 + 16777216 * b3

/-- Little-endian signed 16-bit (two's complement) decode of two bytes. -/
def decodeI16 (b0 b1 : Nat) : Int :=
  let u := b0 + 256 * b1
  if u < 32768 then (u : Int) else (u : Int) - 65536

/-- `struct.unpack("IhBB", raw)`: succeeds exactly on 8-byte records,
raising `struct.error` (`none`) otherwise. -/
def unpackEvent (chunk : List Nat) : Option (Nat × Int × Nat × Nat) :=
  match chunk with
  | [b0, b1, b2, b3, b4, b5, b6, b7] =>
    some (decodeU32 b0 b1 b2 b3, decodeI16 b4 b5, b6, b7)
  | _ => none

/-- `JoystickReader._process_event` (lines 221-253): classify by bit
pattern — bit `0x80` means an init event (dropped unless
`enable_init_events`), `0x01` a button, `0x02` an axis; anything else is
dropped. -/
def process_event (cfg : JoystickConfig) (ts : Nat) (value : Int) (rawType : Nat)
    (number : Nat) : Option JoystickEvent :=
  if rawType &&& 0x80 ≠ 0 then
    if cfg.enable_init_events then
      some { timestamp := ts, event_type := EventType.init, number := number,
             value := value, raw_type := rawType }
    else none
  else if rawType = 0x01 then
    some { timestamp := ts, event_type := EventType.button, number := number,
           value := value, raw_type := rawType }
  else if rawType = 0x02 then
    some { timestamp := ts, event_type := EventType.axis, number := number,
           value := value, raw_type := rawType }
  else none

/-- The observable state of one `read_events` run: the counters, the events
handed (in order) to every registered callback by `_fire_callbacks`, and the
events yielded to the caller. -/
structure ReaderState where
  event_count : Nat
  error_count : Nat
  dispatched : List JoystickEvent
  yielded : List JoystickEvent
deriving Repr, DecidableEq

/-- `JoystickReader.read_events` (lines 264-320) over a list of device
reads (each item is the byte chunk one `device.read(event_size)` returned):
an empty chunk ends the stream; a wrong-length chunk raises `struct.error`,
caught by incrementing the error counter and continuing; an 8-byte chunk is
unpacked and classified, and if it yields an event, the event counter is
incremented, callbacks fire, and the event is yielded. -/
def read_events (cfg : JoystickConfig) : List (List Nat) → ReaderState → ReaderState
  | [], st => st
  | chunk :: rest, st =>
    if chunk = [] then st
    else
      match unpackEvent chunk with
      | none => read_events cfg rest { st with error_count := st.error_count + 1 }
      | some (ts, value, ty, num) =>
        match process_event cfg ts value ty num with
        | none => read_events cfg rest st
        | some ev =>
          read_events cfg rest
            { st with event_count := st.event_count + 1,
                      dispatched := st.dispatched ++ [ev],
                      yielded := st.yielded ++ [ev] }

/-- The counters start at zero and the event lists empty when `read_events`
begins. -/
def initialReaderState : ReaderState :=
  { event_count := 0, error_count := 0, dispatched := [], yielded := [] }

/-- A wrong-length chunk never unpacks. -/
theorem unpackEvent_none_of_length_ne (chunk : List Nat) (h : chunk.length ≠ 8) :
    unpackEvent chunk = none := by
  unfold unpackEvent
  split
  · exact absurd rfl h
  · rfl

/-- `read_events` acts on its accumulator additively: the result from any
starting state is the starting state plus the run's own deltas. -/
theorem read_events_decompose (cfg : JoystickConfig) (chunks : List (List Nat))
    (st : ReaderState) :
    read_events cfg chunks st =
      { event_count :=
          st.event_count + (read_events cfg chunks initialReaderState).event_count,
        error_count :=
          st.error_count + (read_events cfg chunks initialReaderState).error_count,
        dispatched :=
          st.dispatched ++ (read_events cfg chunks initialReaderState).dispatched,
        yielded :=
          st.yielded ++ (read_events cfg chunks initialReaderState).yielded } := by
  induction chunks generalizing st with
  | nil => simp [read_events, initialReaderState]
  | cons chunk rest ih =>
    by_cases hc : chunk = []
    · simp [read_events, hc, initialReaderState]
    · cases hu : unpackEvent chunk with
      | none =>
        have hl := ih { st with error_count := st.error_count + 1 }
        have hr := ih { initialReaderState with error_count := initialReaderState.error_count + 1 }
        rw [read_events, if_neg hc, hu, read_events, if_neg hc, hu, hl, hr]
        simp [initialReaderState, Nat.add_assoc, Nat.add_comm, Nat.add_left_comm]
      | some v =>
        obtain ⟨ts, value, ty, num⟩ := v
        cases hp : process_event cfg ts value ty num with
        | none =>
          rw [read_events, if_neg hc, hu, read_events, if_neg hc, hu]
          simp only [hp]
          exact ih st
        | some ev =>
          have hl := ih { st with event_count := st.event_count + 1, dispatched := st.dispatched ++ [ev], yielded := st.yielded ++ [ev] }
          have hr := ih { initialReaderState with event_count := initialReaderState.event_count + 1, dispatched := initialReaderState.dispatched ++ [ev], yielded := initialReaderState.yielded ++ [ev] }
          rw [read_events, if_neg hc, hu, read_events, if_neg hc, hu]
          simp only [hp]
          rw [hl, hr]
          simp [initialReaderState, Nat.add_assoc, Nat.add_comm, Nat.add_left_comm,
            List.append_assoc]

/-- C9: a malformed (wrong-length, non-empty) record only increments the
error counter — processing continues on the remaining records exactly as it
would have without the malformed record, with the same dispatched and
yielded events and the same event count, and the stream is not aborted. -/
theorem C9_malformed_record_skipped (cfg : JoystickConfig) (bad : List Nat)
    (h1 : bad ≠ []) (h2 : bad.length ≠ 8) (rest : List (List Nat)) (st : ReaderState) :
    read_events cfg (bad :: rest) st =
      read_events cfg rest { st with error_count := st.error_count + 1 } ∧
    (read_events cfg (bad :: rest) st).yielded = (read_events cfg rest st).yielded ∧
    (read_events cfg (bad :: rest) st).dispatched =
      (read_events cfg rest st).dispatched ∧
    (read_events cfg (bad :: rest) st).event_count =
      (read_events cfg rest st).event_count ∧
    (read_events cfg (bad :: rest) st).error_count =
      (read_events cfg rest st).error_count + 1 := by
  have hstep : read_events cfg (bad :: rest) st =
      read_events cfg rest { st with error_count := st.error_count + 1 } := by
    rw [read_events, if_neg h1, unpackEvent_none_of_length_ne bad h2]
  refine ⟨hstep, ?_, ?_, ?_, ?_⟩ <;>
    rw [hstep, read_events_decompose cfg rest { st with error_count := st.error_count + 1 },
      read_events_decompose cfg rest st] <;>
    simp [Nat.add_assoc, Nat.add_comm, Nat.add_left_comm]

/-- C9 witness: the 1-byte record `[0]` followed by a well-formed axis
record. -/
theorem C9_malformed_record_skipped_witness :
    (([0] : List Nat) ≠ []) ∧ (([0] : List Nat).length ≠ 8) ∧
    (read_events defaultJoystickConfig [[0], [0, 0, 0, 0, 100, 0, 2, 0]]
        initialReaderState =
      read_events defaultJoystickConfig [[0, 0, 0, 0, 100, 0, 2, 0]]
        { initialReaderState with
            error_count := initialReaderState.error_count + 1 } ∧
    (read_events defaultJoystickConfig [[0], [0, 0, 0, 0, 100, 0, 2, 0]]
        initialReaderState).yielded =
      (read_events defaultJoystickConfig [[0, 0, 0, 0, 100, 0, 2, 0]]
        initialReaderState).yielded ∧
    (read_events defaultJoystickConfig [[0], [0, 0, 0, 0, 100, 0, 2, 0]]
        initialReaderState).dispatched =
      (read_events defaultJoystickConfig [[0, 0, 0, 0, 100, 0, 2, 0]]
        initialReaderState).dispatched ∧
    (read_events defaultJoystickConfig [[0], [0, 0, 0, 0, 100, 0, 2, 0]]
        initialReaderState).event_count =
      (read_events defaultJoystickConfig [[0, 0, 0, 0, 100, 0, 2, 0]]
        initialReaderState).event_count ∧
    (read_events defaultJoystickConfig [[0], [0, 0, 0, 0, 100, 0, 2, 0]]
        initialReaderState).error_count =
      (read_events defaultJoystickConfig [[0, 0, 0, 0, 100, 0, 2, 0]]
        initialReaderState).error_count + 1) :=
  ⟨by decide, by decide,
    C9_malformed_record_skipped defaultJoystickConfig [0] (by decide) (by decide)
      [[0, 0, 0, 0, 100, 0, 2, 0]] initialReaderState⟩

/-- The `JoystickEvent` decoded from an 8-byte axis record (`type = 0x02`). -/
def axisEvent (b0 b1 b2 b3 b4 b5 b7 : Nat) : JoystickEvent :=
  { timestamp := decodeU32 b0 b1 b2 b3, event_type := EventType.axis,
    number := b7, value := decodeI16 b4 b5, raw_type := 2 }

/-- One `read_events` step on an 8-byte axis record: the decoded
`axisEvent` is counted, dispatched to the callbacks and yielded. -/
theorem read_events_axis_step (cfg : JoystickConfig)
    (b0 b1 b2 b3 b4 b5 b7 : Nat) (rest : List (List Nat)) (st : ReaderState) :
    read_events cfg ([b0, b1, b2, b3, b4, b5, 2, b7] :: rest) st =
      read_events cfg rest
        { st with event_count := st.event_count + 1,
                  dispatched := st.dispatched ++ [axisEvent b0 b1 b2 b3 b4 b5 b7],
                  yielded := st.yielded ++ [axisEvent b0 b1 b2 b3 b4 b5 b7] } := by
  rw [read_events,
    if_neg (by simp : ¬([b0, b1, b2, b3, b4, b5, 2, b7] : List Nat) = [])]
  have hu : unpackEvent [b0, b1, b2, b3, b4, b5, 2, b7] =
      some (decodeU32 b0 b1 b2 b3, decodeI16 b4 b5, 2, b7) := rfl
  rw [hu]
  have hp : process_event cfg (decodeU32 b0 b1 b2 b3) (decodeI16 b4 b5) 2 b7 =
      some (axisEvent b0 b1 b2 b3 b4 b5 b7) := by
    have hand : (2 : Nat) &&& 128 = 0 := by decide
    unfold process_event axisEvent
    simp [hand]
  simp only [hp]

/-- C6 amended: for every axis record delivered by the joystick event
stream, the event handed to handlers (and yielded) carries
`normalized_value = rawValue / 32767` exactly — with no clamping to
`[-1, 1]` and no dead-zone applied; the dead-zone+clamp helper
`_normalize_axis_value` exists but is not applied to stream events. -/
theorem C6_axis_normalization_amended (cfg : JoystickConfig)
    (b0 b1 b2 b3 b4 b5 b7 : Nat) (rest : List (List Nat)) (st : ReaderState) :
    read_events cfg ([b0, b1, b2, b3, b4, b5, 2, b7] :: rest) st =
      read_events cfg rest
        { st with event_count := st.event_count + 1,
                  dispatched := st.dispatched ++ [axisEvent b0 b1 b2 b3 b4 b5 b7],
                  yielded := st.yielded ++ [axisEvent b0 b1 b2 b3 b4 b5 b7] } ∧
    (axisEvent b0 b1 b2 b3 b4 b5 b7).normalized_value =
      (decodeI16 b4 b5 : ℚ) / 32767 := by
  refine ⟨read_events_axis_step cfg b0 b1 b2 b3 b4 b5 b7 rest st, ?_⟩
  simp [JoystickEvent.normalized_value, axisEvent]

/-- C6 counterexample: with the default configuration (dead-zone `0.1`),
the axis record with raw value `100` is delivered to handlers with
`normalized_value = 100/32767 ≠ 0` even though its magnitude is inside the
dead-zone (the claim requires `0`); and the axis record with raw value
`-32768` is delivered with `normalized_value = -32768/32767 < -1` (the
claim requires clamping to `[-1, 1]`). The unused helper
`_normalize_axis_value` would have produced `0` for the first. -/
theorem C6_axis_normalization_counterexample :
    ((read_events defaultJoystickConfig [[0, 0, 0, 0, 100, 0, 2, 0]]
        initialReaderState).dispatched.map JoystickEvent.normalized_value =
      [100/32767]) ∧
    pyabs (100/32767) < defaultJoystickConfig.deadzone ∧
    ((100 : ℚ)/32767 ≠ 0) ∧
    normalize_axis_value defaultJoystickConfig 100 = 0 ∧
    ((read_events defaultJoystickConfig [[0, 0, 0, 0, 0, 128, 2, 0]]
        initialReaderState).yielded.map JoystickEvent.normalized_value =
      [-32768/32767]) ∧
    ((-32768 : ℚ)/32767 < -1) := by
  have h1 : read_events defaultJoystickConfig [[0, 0, 0, 0, 100, 0, 2, 0]]
      initialReaderState =
      { initialReaderState with
          event_count := initialReaderState.event_count + 1,
          dispatched := initialReaderState.dispatched ++ [axisEvent 0 0 0 0 100 0 0],
          yielded := initialReaderState.yielded ++ [axisEvent 0 0 0 0 100 0 0] } :=
    read_events_axis_step defaultJoystickConfig 0 0 0 0 100 0 0 [] initialReaderState
  have h2 : read_events defaultJoystickConfig [[0, 0, 0, 0, 0, 128, 2, 0]]
      initialReaderState =
      { initialReaderState with
          event_count := initialReaderState.event_count + 1,
          dispatched := initialReaderState.dispatched ++ [axisEvent 0 0 0 0 0 128 0],
          yielded := initialReaderState.yielded ++ [axisEvent 0 0 0 0 0 128 0] } :=
    read_events_axis_step defaultJoystickConfig 0 0 0 0 0 128 0 [] initialReaderState
  refine ⟨?_, ?_, by norm_num, ?_, ?_, by norm_num⟩
  · rw [h1]
    simp [initialReaderState, axisEvent, JoystickEvent.normalized_value, decodeI16]
  · norm_num [pyabs, defaultJoystickConfig]
  · norm_num [normalize_axis_value, pyabs, pymin, pymax, defaultJoystickConfig]
  · rw [h2]
    simp only [initialReaderState, List.nil_append, List.map_cons, List.map_nil]
    norm_num [axisEvent, JoystickEvent.normalized_value, decodeI16]

end Hadron
